import Mathlib

/-!
Verification of the AI-Learning-Backend module `backendgpt.py`.

The module wraps three calls to a remote generative-text service
(`generate_subtopics`, `generate_explanation_and_activity`,
`generate_interactive_activity`), each inside an identical bounded
retry/backoff loop, and parses the returned body with `json.loads`.
The remote service is modelled as an oracle mapping the attempt number
to the outcome of that call; `json.loads` is modelled by an executable
JSON parser over strings; each stage function returns the parsed value
(or the `none` sentinel) together with a trace of how many service
calls were made and which backoff sleeps were performed.
-/

set_option linter.unusedVariables false

/-- JSON values as produced by `json.loads`.  Numbers are kept as exact
decimals `mantissa * 10 ^ exp10` to avoid floating point. -/
inductive Json where
  | null : Json
  | bool (b : Bool) : Json
  | num (mantissa : Int) (exp10 : Int) : Json
  | str (s : String) : Json
  | arr (items : List Json) : Json
  | obj (fields : List (String × Json)) : Json

/-- Field lookup in a JSON object (first binding wins), `none` on any
other constructor. -/
def Json.getField : Json → String → Option Json
  | Json.obj fields, key => List.lookup key fields
  | _, _ => none

/-- Whitespace skipping as in the JSON grammar accepted by `json.loads`. -/
def skipWs : List Char → List Char
  | [] => []
  | c :: cs =>
    if c == ' ' || c == '\t' || c == '\n' || c == '\r' then skipWs cs
    else c :: cs

/-- Value of a hexadecimal digit character. -/
def hexVal (c : Char) : Option Nat :=
  if '0' ≤ c ∧ c ≤ '9' then some (c.toNat - 48)
  else if 'a' ≤ c ∧ c ≤ 'f' then some (c.toNat - 87)
  else if 'A' ≤ c ∧ c ≤ 'F' then some (c.toNat - 55)
  else none

/-- Longest prefix of decimal digits, with the remaining input. -/
def takeDigits : List Char → List Char × List Char
  | [] => ([], [])
  | c :: cs =>
    if c.isDigit then
      let (d, r) := takeDigits cs
      (c :: d, r)
    else ([], c :: cs)

/-- Decimal digit list to a natural number. -/
def digitsToNat (ds : List Char) : Nat :=
  ds.foldl (fun a c => a * 10 + (c.toNat - 48)) 0

/-- Exponent digits (after `e`/`E`), with optional sign. -/
def parseExpTail (cs : List Char) : Option (Int × List Char) :=
  let (sgn, cs1) : Int × List Char :=
    match cs with
    | '+' :: r => (1, r)
    | '-' :: r => (-1, r)
    | _ => (1, cs)
  let (d, cs2) := takeDigits cs1
  if d.isEmpty then none else some (sgn * (digitsToNat d : Int), cs2)

/-- Optional exponent part of a JSON number; yields `0` when absent. -/
def parseExp : List Char → Option (Int × List Char)
  | 'e' :: rest => parseExpTail rest
  | 'E' :: rest => parseExpTail rest
  | cs => some (0, cs)

/-- JSON number literal: optional minus, digits, optional fraction,
optional exponent. -/
def parseNumber (cs : List Char) : Option (Json × List Char) :=
  let (neg, cs1) : Bool × List Char :=
    match cs with
    | '-' :: r => (true, r)
    | _ => (false, cs)
  let (d1, cs2) := takeDigits cs1
  if d1.isEmpty then none
  else
    match cs2 with
    | '.' :: r =>
      let (d2, cs3) := takeDigits r
      if d2.isEmpty then none
      else
        match parseExp cs3 with
        | some (e, cs4) =>
          let m : Int := Int.ofNat (digitsToNat (d1 ++ d2))
          some (Json.num (if neg then -m else m) (e - d2.length), cs4)
        | none => none
    | _ =>
      match parseExp cs2 with
      | some (e, cs3) =>
        let m : Int := Int.ofNat (digitsToNat d1)
        some (Json.num (if neg then -m else m) e, cs3)
      | none => none

/-- Four-hex-digit unicode escape body. -/
def parseUnicodeEscape : List Char → Option (Char × List Char)
  | a :: b :: c :: d :: rest =>
    match hexVal a, hexVal b, hexVal c, hexVal d with
    | some x, some y, some z, some w =>
      some (Char.ofNat (((x * 16 + y) * 16 + z) * 16 + w), rest)
    | _, _, _, _ => none
  | _ => none

/-- Characters of a JSON string literal after the opening quote, up to
and consuming the closing quote; handles the escape sequences of the
JSON grammar. -/
def parseStringChars : Nat → List Char → Option (List Char × List Char)
  | 0, _ => none
  | _, [] => none
  | fuel + 1, c :: cs =>
    if c = '"' then some ([], cs)
    else if c = '\\' then
      match cs with
      | [] => none
      | e :: cs2 =>
        let dec : Option (Char × List Char) :=
          if e = '"' then some ('"', cs2)
          else if e = '\\' then some ('\\', cs2)
          else if e = '/' then some ('/', cs2)
          else if e = 'b' then some ('\x08', cs2)
          else if e = 'f' then some ('\x0C', cs2)
          else if e = 'n' then some ('\n', cs2)
          else if e = 'r' then some ('\r', cs2)
          else if e = 't' then some ('\t', cs2)
          else if e = 'u' then parseUnicodeEscape cs2
          else none
        match dec with
        | some (d, rest) =>
          match parseStringChars fuel rest with
          | some (out, r2) => some (d :: out, r2)
          | none => none
        | none => none
    else
      match parseStringChars fuel cs with
      | some (out, r2) => some (c :: out, r2)
      | none => none

mutual

/-- One JSON value with leading whitespace, returning the remaining
input.  Fueled recursion; the top level supplies ample fuel. -/
def parseValue : Nat → List Char → Option (Json × List Char)
  | 0, _ => none
  | fuel + 1, cs =>
    match skipWs cs with
    | [] => none
    | c :: rest =>
      if c = '"' then
        match parseStringChars (rest.length + 1) rest with
        | some (chars, r) => some (Json.str (String.mk chars), r)
        | none => none
      else if c = '\x7b' then
        match skipWs rest with
        | '\x7d' :: r => some (Json.obj [], r)
        | _ =>
          match parseMembers fuel rest with
          | some (ms, r) => some (Json.obj ms, r)
          | none => none
      else if c = '[' then
        match skipWs rest with
        | ']' :: r => some (Json.arr [], r)
        | _ =>
          match parseElems fuel rest with
          | some (vs, r) => some (Json.arr vs, r)
          | none => none
      else if c = 't' then
        match rest with
        | 'r' :: 'u' :: 'e' :: r => some (Json.bool true, r)
        | _ => none
      else if c = 'f' then
        match rest with
        | 'a' :: 'l' :: 's' :: 'e' :: r => some (Json.bool false, r)
        | _ => none
      else if c = 'n' then
        match rest with
        | 'u' :: 'l' :: 'l' :: r => some (Json.null, r)
        | _ => none
      else if c = '-' ∨ c.isDigit then parseNumber (c :: rest)
      else none

/-- Nonempty member list of a JSON object, consuming the closing brace. -/
def parseMembers : Nat → List Char → Option (List (String × Json) × List Char)
  | 0, _ => none
  | fuel + 1, cs =>
    match skipWs cs with
    | [] => none
    | c :: rest =>
      if c = '"' then
        match parseStringChars (rest.length + 1) rest with
        | some (key, r1) =>
          match skipWs r1 with
          | ':' :: r2 =>
            match parseValue fuel r2 with
            | some (v, r3) =>
              match skipWs r3 with
              | ',' :: r4 =>
                match parseMembers fuel r4 with
                | some (ms, r5) => some ((String.mk key, v) :: ms, r5)
                | none => none
              | '\x7d' :: r4 => some ([(String.mk key, v)], r4)
              | _ => none
            | none => none
          | _ => none
        | none => none
      else none

/-- Nonempty element list of a JSON array, consuming the closing bracket. -/
def parseElems : Nat → List Char → Option (List Json × List Char)
  | 0, _ => none
  | fuel + 1, cs =>
    match parseValue fuel cs with
    | some (v, r1) =>
      match skipWs r1 with
      | ',' :: r2 =>
        match parseElems fuel r2 with
        | some (vs, r3) => some (v :: vs, r3)
        | none => none
      | ']' :: r2 => some ([v], r2)
      | _ => none
    | none => none

end

/-- Model of Python `json.loads`: parse one JSON document and require
that nothing but whitespace remains; `none` models the parse exception. -/
def loads (s : String) : Option Json :=
  match parseValue (2 * s.length + 2) s.data with
  | some (v, rest) => if (skipWs rest).isEmpty then some v else none
  | none => none

/-! ## Model of the remote service and the retry loops -/

/-- Outcome of one `client.models.generate_content` call, as observed by
the stage functions: an `errors.APIError`, any other exception, or a
response whose `text` attribute may be absent (`None`). -/
inductive CallResult where
  | apiError (msg : String) : CallResult
  | otherError (msg : String) : CallResult
  | response (text : Option String) : CallResult

/-- Result of running a stage function, together with the externally
observable trace: how many service calls were issued and which backoff
sleeps (in seconds) were performed, in order. -/
structure StageResult where
  value : Option Json
  calls : Nat
  sleeps : List Nat

/-- Shared retry loop of the three stage functions
(`for attempt in range(1, retries + 1): ...`): run `step` at each
attempt number, return on the first attempt yielding a value, otherwise
sleep `delay * 2 ^ (attempt - 1)` before every attempt except the last
and fall through to the `none` sentinel.  `fuel` counts the attempts
still allowed; the wrappers start it at the full budget. -/
def retryGo (step : Nat → Option Json) (n delay : Nat) : Nat → Nat → StageResult
  | _attempt, 0 => ⟨none, 0, []⟩
  | attempt, fuel + 1 =>
    match step attempt with
    | some v => ⟨some v, 1, []⟩
    | none =>
      if attempt < n then
        let rest := retryGo step n delay (attempt + 1) fuel
        ⟨rest.value, rest.calls + 1, delay * 2 ^ (attempt - 1) :: rest.sleeps⟩
      else ⟨none, 1, []⟩

/-- Body of one attempt of `generate_subtopics`: an API error or any
other exception is caught; a truthy (non-`None`, nonempty) `text` is
fed to `json.loads`, whose parse exception is also caught; a falsy
`text` only logs a warning.  Every caught path falls through to retry. -/
def stepSubtopics (oracle : Nat → CallResult) (k : Nat) : Option Json :=
  match oracle k with
  | CallResult.response (some t) => if t = "" then none else loads t
  | _ => none

/-- Body of one attempt of `generate_explanation_and_activity`:
`json.loads(response.text)` inside a bare `except Exception`, so an
absent body (`TypeError`), a parse failure, and any call error all fall
through to retry. -/
def stepExplanation (oracle : Nat → CallResult) (k : Nat) : Option Json :=
  match oracle k with
  | CallResult.response (some t) => loads t
  | _ => none

/-- Body of one attempt of `generate_interactive_activity`; identical
error structure to `stepExplanation`. -/
def stepActivity (oracle : Nat → CallResult) (k : Nat) : Option Json :=
  match oracle k with
  | CallResult.response (some t) => loads t
  | _ => none

/-- Default of the `retries` parameter of all three stage functions. -/
def defaultRetries : Int := 1

/-- Default of the `delay` parameter of all three stage functions. -/
def defaultDelay : Nat := 3

/-- Default of the `template_type` parameter of
`generate_interactive_activity`. -/
def defaultTemplateType : String := "drag_drop"

/-- Stage 1 of the pipeline, `generate_subtopics(user_question, retries,
delay)`.  The `oracle` stands for the remote service; `retries` is an
integer as in Python, where a non-positive budget makes the loop body
never run. -/
def generate_subtopics (oracle : Nat → CallResult) (user_question : String)
    (retries : Int) (delay : Nat) : StageResult :=
  retryGo (stepSubtopics oracle) retries.toNat delay 1 retries.toNat

/-- Stage 2 of the pipeline, `generate_explanation_and_activity(subtopic,
user_question, retries, delay)`. -/
def generate_explanation_and_activity (oracle : Nat → CallResult)
    (subtopic user_question : String) (retries : Int) (delay : Nat) : StageResult :=
  retryGo (stepExplanation oracle) retries.toNat delay 1 retries.toNat

/-- Stage 3 of the pipeline, `generate_interactive_activity(topic,
explanation, template_type, retries, delay)`. -/
def generate_interactive_activity (oracle : Nat → CallResult)
    (topic explanation template_type : String) (retries : Int) (delay : Nat) : StageResult :=
  retryGo (stepActivity oracle) retries.toNat delay 1 retries.toNat

/-! ## Request configuration constants -/

/-- The model identifier used by all three stages. -/
def MODEL_ID : String := "gemini-2.5-flash-lite"

/-- The fields of `types.GenerateContentConfig` that carry numeric
policy: sampling temperature and the optional output-token ceiling. -/
structure GenerateContentConfig where
  temperature : ℚ
  max_output_tokens : Option Nat

/-- Config built by `generate_subtopics` (temperature 0.7, ceiling 500). -/
def subtopicsConfig : GenerateContentConfig := ⟨7 / 10, some 500⟩

/-- Config built by `generate_explanation_and_activity` (temperature 0.7,
ceiling 1000). -/
def explanationConfig : GenerateContentConfig := ⟨7 / 10, some 1000⟩

/-- Config built by `generate_interactive_activity` (temperature 0.7, no
ceiling). -/
def activityConfig : GenerateContentConfig := ⟨7 / 10, none⟩

/-! ## Module initialization -/

/-- Python truthiness test `not GEMINI_API_KEY` on the result of
`os.getenv`: true when the variable is absent or bound to the empty
string. -/
def pyFalsyStr : Option String → Bool
  | none => true
  | some s => s == ""

/-- Module-level startup of `backendgpt.py`: read `GEMINI_API_KEY` from
the environment and raise `ValueError` when it is falsy, otherwise
proceed to construct the client. -/
def moduleInit (env : String → Option String) : Except String Unit :=
  if pyFalsyStr (env "GEMINI_API_KEY") = true then
    Except.error "Missing API Key! Set GEMINI_API_KEY in your environment variables."
  else Except.ok ()

/-- Whether a modelled initialization raised. -/
def raisesError : Except String Unit → Bool
  | Except.error _ => true
  | Except.ok _ => false

/-! ## Spec-side predicates (from the specification text, for
refinement comparisons; the source performs none of these checks) -/

/-- Enumerated `depth_level` values of a SubtopicPlan, from the spec. -/
def depthLevels : List String := ["Introductory", "Intermediate", "Advanced"]

/-- Enumerated `question_type` values of a SubtopicPlan, from the spec. -/
def questionTypes : List String := ["Factual", "Conceptual", "Procedural", "Opinion", "Open-Ended"]

/-- SubtopicPlan invariants stated by the spec: `curiosity_tree` is a
list of length 3 to 5 and `depth_level` / `question_type` belong to
their enumerated sets. -/
def isValidSubtopicPlan (j : Json) : Bool :=
  match j.getField "curiosity_tree", j.getField "depth_level", j.getField "question_type" with
  | some (Json.arr xs), some (Json.str d), some (Json.str q) =>
    decide (3 ≤ xs.length) && decide (xs.length ≤ 5)
      && depthLevels.contains d && questionTypes.contains q
  | _, _, _ => false

/-- Uniform classification of a failing attempt outcome: transport
error, unexpected exception, absent body, or a body `json.loads`
rejects (the empty string included). -/
def failingOutcome : CallResult → Bool
  | CallResult.apiError _ => true
  | CallResult.otherError _ => true
  | CallResult.response none => true
  | CallResult.response (some t) => (loads t).isNone

/-- Backoff sleeps performed when every attempt in `[attempt, n]`
fails: one sleep of `delay * 2 ^ (k - 1)` after each attempt
`k ∈ [attempt, n - 1]`. -/
def backoffSleeps (delay attempt n : Nat) : List Nat :=
  (List.range' (attempt - 1) (n - attempt)).map (fun i => delay * 2 ^ i)

/-! ## Concrete service behaviors and bodies used in the examples below -/

/-- Service that always succeeds at the transport level but returns an
absent body (`response.text is None`). -/
def emptyBodyOracle : Nat → CallResult := fun _ => CallResult.response none

/-- Service that always fails with an API error (e.g. a 429 rate
limit). -/
def apiErrorOracle : Nat → CallResult := fun _ => CallResult.apiError "429 rate limit"

/-- Response body whose `depth_level` and `question_type` are in their
enumerated sets but whose `curiosity_tree` has length 1, outside
`[3,5]`. -/
def badPlanBody : String :=
  "\x7b\"depth_level\": \"Introductory\", \"question_type\": \"Factual\", \"curiosity_tree\": [\"a\"]\x7d"

/-- Parse of `badPlanBody`. -/
def badPlanJson : Json :=
  Json.obj [("depth_level", Json.str "Introductory"), ("question_type", Json.str "Factual"),
    ("curiosity_tree", Json.arr [Json.str "a"])]

/-- Service that always returns `badPlanBody`. -/
def badPlanOracle : Nat → CallResult := fun _ => CallResult.response (some badPlanBody)

/-- Syntactically valid `match` activity body with the `pairs` key
missing: wrong-shaped for the match_pairs template. -/
def matchBadBody : String :=
  "\x7b\"id\": \"m1\", \"type\": \"match\", \"title\": \"T\", \"description\": \"D\"\x7d"

/-- Parse of `matchBadBody`; it has no `pairs` field. -/
def matchBadJson : Json :=
  Json.obj [("id", Json.str "m1"), ("type", Json.str "match"), ("title", Json.str "T"),
    ("description", Json.str "D")]

/-- Service that always returns `matchBadBody`. -/
def matchBadOracle : Nat → CallResult := fun _ => CallResult.response (some matchBadBody)

/-- Environment in which `GEMINI_API_KEY` is present but bound to the
empty string. -/
def emptyKeyEnv : String → Option String :=
  fun name => if name = "GEMINI_API_KEY" then some "" else none

/-- Well-formed JSON body used to exercise the parse step. -/
def sampleBody : String := "\x7b\"a\": [1, true, null, \"x\"]\x7d"

/-- Parse of `sampleBody`. -/
def sampleJson : Json :=
  Json.obj [("a", Json.arr [Json.num 1 0, Json.bool true, Json.null, Json.str "x"])]

/-! ## Core lemmas about the retry loop -/

theorem retryGo_all_fail (step : Nat → Option Json) (n delay : Nat) :
    ∀ fuel attempt, attempt + fuel = n + 1 → 1 ≤ attempt →
      (∀ k, attempt ≤ k → k ≤ n → step k = none) →
      retryGo step n delay attempt fuel = ⟨none, fuel, backoffSleeps delay attempt n⟩ := by
  intro fuel
  induction fuel with
  | zero =>
    intro attempt hsum h1 _h
    have hn : n - attempt = 0 := by omega
    simp [retryGo, backoffSleeps, hn]
  | succ fuel ih =>
    intro attempt hsum h1 h
    have hle : attempt ≤ n := by omega
    have hstep : step attempt = none := h attempt le_rfl hle
    by_cases hlt : attempt < n
    · have hrec := ih (attempt + 1) (by omega) (by omega)
        (fun k hk1 hk2 => h k (by omega) hk2)
      simp only [retryGo, hstep, hlt, if_true, hrec]
      have hn : n - attempt = (n - (attempt + 1)) + 1 := by omega
      have ha : attempt - 1 + 1 = attempt := by omega
      simp only [backoffSleeps, hn, List.range'_succ, List.map_cons, ha, Nat.add_sub_cancel]
    · have ha : attempt = n := by omega
      have hf : fuel = 0 := by omega
      subst ha hf
      simp [retryGo, hstep, hlt, backoffSleeps, Nat.sub_self]

theorem retryGo_none_all_fail (step : Nat → Option Json) (n delay : Nat) :
    ∀ fuel attempt, attempt + fuel = n + 1 →
      (retryGo step n delay attempt fuel).value = none →
      ∀ k, attempt ≤ k → k ≤ n → step k = none := by
  intro fuel
  induction fuel with
  | zero =>
    intro attempt hsum _hval k hk1 hk2
    omega
  | succ fuel ih =>
    intro attempt hsum hval k hk1 hk2
    cases hstep : step attempt with
    | some v =>
      simp only [retryGo, hstep] at hval
      exact absurd hval (by simp)
    | none =>
      by_cases hlt : attempt < n
      · rcases Nat.eq_or_lt_of_le hk1 with heq | hgt
        · exact heq ▸ hstep
        · simp only [retryGo, hstep, hlt, if_true] at hval
          exact ih (attempt + 1) (by omega) hval k hgt hk2
      · have : k = attempt := by omega
        exact this ▸ hstep

theorem retryGo_some_step (step : Nat → Option Json) (n delay : Nat) :
    ∀ fuel attempt v, attempt + fuel = n + 1 →
      (retryGo step n delay attempt fuel).value = some v →
      ∃ k, attempt ≤ k ∧ k ≤ n ∧ step k = some v := by
  intro fuel
  induction fuel with
  | zero =>
    intro attempt v _hsum hval
    exact absurd hval (by simp [retryGo])
  | succ fuel ih =>
    intro attempt v hsum hval
    cases hstep : step attempt with
    | some w =>
      simp only [retryGo, hstep] at hval
      have hw : w = v := by simpa using hval
      exact ⟨attempt, le_rfl, by omega, hw ▸ hstep⟩
    | none =>
      by_cases hlt : attempt < n
      · simp only [retryGo, hstep, hlt, if_true] at hval
        rcases ih (attempt + 1) v (by omega) hval with ⟨k, hk1, hk2, hk3⟩
        exact ⟨k, by omega, hk2, hk3⟩
      · simp only [retryGo, hstep, hlt, if_false] at hval
        exact absurd hval (by simp)

theorem retryGo_single (step : Nat → Option Json) (delay : Nat) :
    retryGo step 1 delay 1 1 = ⟨step 1, 1, []⟩ := by
  cases h : step 1 <;> simp [retryGo, h]

theorem retryGo_first_success (step : Nat → Option Json) (n delay fuel : Nat) (v : Json)
    (h : step 1 = some v) :
    (retryGo step n delay 1 (fuel + 1)).value = some v := by
  simp [retryGo, h]

theorem stepSubtopics_eq_none (oracle : Nat → CallResult) (k : Nat)
    (h : failingOutcome (oracle k) = true) : stepSubtopics oracle k = none := by
  cases horacle : oracle k with
  | apiError m => simp [stepSubtopics, horacle]
  | otherError m => simp [stepSubtopics, horacle]
  | response t =>
    cases t with
    | none => simp [stepSubtopics, horacle]
    | some s =>
      rw [horacle] at h
      simp only [failingOutcome, Option.isNone_iff_eq_none] at h
      by_cases hs : s = "" <;> simp [stepSubtopics, horacle, hs, h]

theorem stepExplanation_eq_none (oracle : Nat → CallResult) (k : Nat)
    (h : failingOutcome (oracle k) = true) : stepExplanation oracle k = none := by
  cases horacle : oracle k with
  | apiError m => simp [stepExplanation, horacle]
  | otherError m => simp [stepExplanation, horacle]
  | response t =>
    cases t with
    | none => simp [stepExplanation, horacle]
    | some s =>
      rw [horacle] at h
      simp only [failingOutcome, Option.isNone_iff_eq_none] at h
      simp [stepExplanation, horacle, h]

theorem stepActivity_eq_none (oracle : Nat → CallResult) (k : Nat)
    (h : failingOutcome (oracle k) = true) : stepActivity oracle k = none := by
  cases horacle : oracle k with
  | apiError m => simp [stepActivity, horacle]
  | otherError m => simp [stepActivity, horacle]
  | response t =>
    cases t with
    | none => simp [stepActivity, horacle]
    | some s =>
      rw [horacle] at h
      simp only [failingOutcome, Option.isNone_iff_eq_none] at h
      simp [stepActivity, horacle, h]

/-! ## Claim theorems -/

/-- C1 (amended): for every service behavior, `generate_subtopics`
either returns the JSON value that `json.loads` produced at some
successful attempt — with no guarantee that `curiosity_tree` has length
in `[3,5]` or that `depth_level`/`question_type` lie in their
enumerated sets, since the code performs no such validation — or
returns the `None` sentinel after exactly `retries` call attempts. -/
theorem C1_plan_parse_or_sentinel (oracle : Nat → CallResult) (user_question : String)
    (retries : Int) (delay : Nat) :
    (∃ k, 1 ≤ k ∧ k ≤ retries.toNat ∧
        stepSubtopics oracle k = (generate_subtopics oracle user_question retries delay).value ∧
        (generate_subtopics oracle user_question retries delay).value ≠ none)
    ∨ ((generate_subtopics oracle user_question retries delay).value = none ∧
        (generate_subtopics oracle user_question retries delay).calls = retries.toNat) := by
  cases hv : (generate_subtopics oracle user_question retries delay).value with
  | none =>
    right
    refine ⟨rfl, ?_⟩
    have hall := retryGo_none_all_fail (stepSubtopics oracle) retries.toNat delay
      retries.toNat 1 (by omega) (by simpa [generate_subtopics] using hv)
    have hfull := retryGo_all_fail (stepSubtopics oracle) retries.toNat delay
      retries.toNat 1 (by omega) le_rfl hall
    simp [generate_subtopics, hfull]
  | some v =>
    left
    have hs := retryGo_some_step (stepSubtopics oracle) retries.toNat delay
      retries.toNat 1 v (by omega) (by simpa [generate_subtopics] using hv)
    rcases hs with ⟨k, hk1, hk2, hk3⟩
    exact ⟨k, hk1, hk2, hk3, Option.some_ne_none v⟩

/-- C1 (counterexample): a service whose response has a one-element
`curiosity_tree` and otherwise valid fields makes `generate_subtopics`
return that object unvalidated: the result is neither a SubtopicPlan
satisfying the stated invariants nor the `None` sentinel. -/
theorem C1_counterexample :
    ¬ ((∃ j, (generate_subtopics badPlanOracle "Why is the sky blue?" 1 3).value = some j ∧
          isValidSubtopicPlan j = true)
        ∨ (generate_subtopics badPlanOracle "Why is the sky blue?" 1 3).value = none) := by
  have hv : (generate_subtopics badPlanOracle "Why is the sky blue?" 1 3).value
      = some badPlanJson := by rfl
  intro hclaim
  rcases hclaim with ⟨j, hj, hvalid⟩ | hnone
  · rw [hv] at hj
    have hjj : badPlanJson = j := Option.some.inj hj
    rw [← hjj] at hvalid
    have hfalse : isValidSubtopicPlan badPlanJson = false := by rfl
    rw [hfalse] at hvalid
    exact Bool.false_ne_true hvalid
  · rw [hv] at hnone
    exact Option.some_ne_none badPlanJson hnone

/-- C2: for every stage and every sequence of failing outcomes
(transport error, unexpected exception, empty body, malformed JSON),
after the attempt budget is exhausted every stage function returns the
uniform sentinel `none` — never an exception, and with no record of why
it failed. -/
theorem C2_uniform_failure_sentinel (oracle : Nat → CallResult)
    (subtopic user_question topic explanation template_type : String)
    (retries : Int) (delay : Nat)
    (hfail : ∀ k, failingOutcome (oracle k) = true) :
    (generate_subtopics oracle user_question retries delay).value = none ∧
    (generate_explanation_and_activity oracle subtopic user_question retries delay).value = none ∧
    (generate_interactive_activity oracle topic explanation template_type retries delay).value
      = none := by
  refine ⟨?_, ?_, ?_⟩
  · have h := retryGo_all_fail (stepSubtopics oracle) retries.toNat delay retries.toNat 1
      (by omega) le_rfl (fun k _ _ => stepSubtopics_eq_none oracle k (hfail k))
    simp [generate_subtopics, h]
  · have h := retryGo_all_fail (stepExplanation oracle) retries.toNat delay retries.toNat 1
      (by omega) le_rfl (fun k _ _ => stepExplanation_eq_none oracle k (hfail k))
    simp [generate_explanation_and_activity, h]
  · have h := retryGo_all_fail (stepActivity oracle) retries.toNat delay retries.toNat 1
      (by omega) le_rfl (fun k _ _ => stepActivity_eq_none oracle k (hfail k))
    simp [generate_interactive_activity, h]

/-- C2 (witness): with a service that always returns an empty body and
a budget of 3, all three stages return the sentinel. -/
theorem C2_witness :
    (∀ k, failingOutcome (emptyBodyOracle k) = true) ∧
    ((generate_subtopics emptyBodyOracle "Q" 3 3).value = none ∧
     (generate_explanation_and_activity emptyBodyOracle "S" "Q" 3 3).value = none ∧
     (generate_interactive_activity emptyBodyOracle "T" "E" "drag_drop" 3 3).value = none) :=
  ⟨fun _ => rfl,
    C2_uniform_failure_sentinel emptyBodyOracle "S" "Q" "T" "E" "drag_drop" 3 3 (fun _ => rfl)⟩

/-- C3: when every attempt fails, each stage sleeps exactly
`delay * 2 ^ (k - 1)` between attempt `k` and `k + 1` for
`k ∈ [1, retries - 1]` and performs no sleep after the final attempt
(the sleep list has `retries - 1` entries); for `retries = 3` and
`delay = 3` the sleeps are 3s then 6s. -/
theorem C3_exponential_backoff (oracle : Nat → CallResult)
    (subtopic user_question topic explanation template_type : String)
    (retries : Int) (delay : Nat)
    (hfail : ∀ k, failingOutcome (oracle k) = true) :
    (generate_subtopics oracle user_question retries delay).sleeps
      = (List.range (retries.toNat - 1)).map (fun i => delay * 2 ^ i) ∧
    (generate_explanation_and_activity oracle subtopic user_question retries delay).sleeps
      = (List.range (retries.toNat - 1)).map (fun i => delay * 2 ^ i) ∧
    (generate_interactive_activity oracle topic explanation template_type retries delay).sleeps
      = (List.range (retries.toNat - 1)).map (fun i => delay * 2 ^ i) ∧
    (generate_subtopics oracle user_question 3 3).sleeps = [3, 6] := by
  have hsub := retryGo_all_fail (stepSubtopics oracle) retries.toNat delay retries.toNat 1
    (by omega) le_rfl (fun k _ _ => stepSubtopics_eq_none oracle k (hfail k))
  have hexp := retryGo_all_fail (stepExplanation oracle) retries.toNat delay retries.toNat 1
    (by omega) le_rfl (fun k _ _ => stepExplanation_eq_none oracle k (hfail k))
  have hact := retryGo_all_fail (stepActivity oracle) retries.toNat delay retries.toNat 1
    (by omega) le_rfl (fun k _ _ => stepActivity_eq_none oracle k (hfail k))
  have h3 := retryGo_all_fail (stepSubtopics oracle) 3 3 3 1
    (by omega) le_rfl (fun k _ _ => stepSubtopics_eq_none oracle k (hfail k))
  refine ⟨?_, ?_, ?_, ?_⟩
  · simp [generate_subtopics, hsub, backoffSleeps, List.range_eq_range']
  · simp [generate_explanation_and_activity, hexp, backoffSleeps, List.range_eq_range']
  · simp [generate_interactive_activity, hact, backoffSleeps, List.range_eq_range']
  · have : ((3 : Int)).toNat = 3 := rfl
    simp [generate_subtopics, this, h3]
    rfl

/-- C3 (witness): a service that always returns an empty body realizes
the all-fail hypothesis; with `retries = 4`, `delay = 3` the sleep list
is `[3, 6, 12]`, and the concrete `retries = 3` case sleeps 3s then 6s. -/
theorem C3_witness :
    (∀ k, failingOutcome (emptyBodyOracle k) = true) ∧
    ((generate_subtopics emptyBodyOracle "Q" 4 3).sleeps
        = (List.range ((4 : Int).toNat - 1)).map (fun i => 3 * 2 ^ i) ∧
     (generate_explanation_and_activity emptyBodyOracle "S" "Q" 4 3).sleeps
        = (List.range ((4 : Int).toNat - 1)).map (fun i => 3 * 2 ^ i) ∧
     (generate_interactive_activity emptyBodyOracle "T" "E" "drag_drop" 4 3).sleeps
        = (List.range ((4 : Int).toNat - 1)).map (fun i => 3 * 2 ^ i) ∧
     (generate_subtopics emptyBodyOracle "Q" 3 3).sleeps = [3, 6]) :=
  ⟨fun _ => rfl,
    C3_exponential_backoff emptyBodyOracle "S" "Q" "T" "E" "drag_drop" 4 3 (fun _ => rfl)⟩

/-- C4: every failing attempt outcome is treated as retryable, so the
loop uses the whole budget (`calls = retries`) under any all-failing
service; in particular with an always-empty body and `retries = 2`,
`generate_subtopics` returns the sentinel after exactly 2 call attempts
and exactly one backoff sleep of `delay` seconds. -/
theorem C4_any_failure_retryable (o1 o2 : Nat → CallResult) (user_question : String)
    (retries : Int) (delay : Nat)
    (hfail : ∀ k, failingOutcome (o1 k) = true)
    (hempty : ∀ k, o2 k = CallResult.response none) :
    (generate_subtopics o1 user_question retries delay).calls = retries.toNat ∧
    (generate_subtopics o2 user_question 2 delay).value = none ∧
    (generate_subtopics o2 user_question 2 delay).calls = 2 ∧
    (generate_subtopics o2 user_question 2 delay).sleeps = [delay] := by
  have h1 := retryGo_all_fail (stepSubtopics o1) retries.toNat delay retries.toNat 1
    (by omega) le_rfl (fun k _ _ => stepSubtopics_eq_none o1 k (hfail k))
  have hstep2 : ∀ k, stepSubtopics o2 k = none := fun k => by
    simp [stepSubtopics, hempty k]
  have h2 := retryGo_all_fail (stepSubtopics o2) 2 delay 2 1
    (by omega) le_rfl (fun k _ _ => hstep2 k)
  have ht : ((2 : Int)).toNat = 2 := rfl
  refine ⟨?_, ?_, ?_, ?_⟩
  · simp [generate_subtopics, h1]
  · simp [generate_subtopics, ht, h2]
  · simp [generate_subtopics, ht, h2]
  · simp [generate_subtopics, ht, h2, backoffSleeps]

/-- C4 (witness): an always-APIError service and an always-empty-body
service realize the hypotheses with `retries = 5`, `delay = 3`. -/
theorem C4_witness :
    (∀ k, failingOutcome (apiErrorOracle k) = true) ∧
    (∀ k, emptyBodyOracle k = CallResult.response none) ∧
    ((generate_subtopics apiErrorOracle "Q" 5 3).calls = (5 : Int).toNat ∧
     (generate_subtopics emptyBodyOracle "Q" 2 3).value = none ∧
     (generate_subtopics emptyBodyOracle "Q" 2 3).calls = 2 ∧
     (generate_subtopics emptyBodyOracle "Q" 2 3).sleeps = [3]) :=
  ⟨fun _ => rfl, fun _ => rfl,
    C4_any_failure_retryable apiErrorOracle emptyBodyOracle "Q" 5 3 (fun _ => rfl) (fun _ => rfl)⟩

/-- C5: whenever the first attempt's response body parses as JSON,
`generate_interactive_activity` returns the parsed value exactly as the
parser produced it, for every value whatsoever — no per-template
invariant (pairs key present, answers within blanks, correctElementId
referencing a draggable id) is checked locally. -/
theorem C5_activity_returned_unvalidated (oracle : Nat → CallResult)
    (topic explanation template_type : String) (retries : Int) (delay : Nat)
    (t : String) (v : Json)
    (h1 : 1 ≤ retries)
    (hcall : oracle 1 = CallResult.response (some t))
    (hparse : loads t = some v) :
    (generate_interactive_activity oracle topic explanation template_type retries delay).value
      = some v := by
  have hstep : stepActivity oracle 1 = some v := by simp [stepActivity, hcall, hparse]
  obtain ⟨m, hm⟩ : ∃ m, retries.toNat = m + 1 := ⟨retries.toNat - 1, by omega⟩
  simp only [generate_interactive_activity, hm]
  exact retryGo_first_success (stepActivity oracle) (m + 1) delay m v hstep

/-- C5 (witness): a syntactically valid `match` object with the `pairs`
key missing is returned to the caller unmodified rather than rejected. -/
theorem C5_witness :
    (1 : Int) ≤ 1 ∧ loads matchBadBody = some matchBadJson ∧
    Json.getField matchBadJson "pairs" = none ∧
    (generate_interactive_activity matchBadOracle "Photosynthesis" "E" "match_pairs" 1 3).value
      = some matchBadJson :=
  ⟨le_rfl, by rfl, by rfl,
    C5_activity_returned_unvalidated matchBadOracle "Photosynthesis" "E" "match_pairs" 1 3
      matchBadBody matchBadJson le_rfl rfl (by rfl)⟩

/-- C6 (amended): module initialization raises exactly when
`GEMINI_API_KEY` is absent from the environment or bound to the empty
string (Python falsiness); it does not raise exactly when the variable
is present with a non-empty value. -/
theorem C6_startup_key_check (env : String → Option String) :
    raisesError (moduleInit env) = true
      ↔ (env "GEMINI_API_KEY" = none ∨ env "GEMINI_API_KEY" = some "") := by
  cases henv : env "GEMINI_API_KEY" with
  | none => simp [moduleInit, henv, pyFalsyStr, raisesError]
  | some s =>
    by_cases hs : s = ""
    · subst hs
      simp [moduleInit, henv, pyFalsyStr, raisesError]
    · simp [moduleInit, henv, pyFalsyStr, raisesError, hs]

/-- C6 (counterexample): in an environment where `GEMINI_API_KEY` is
present but bound to the empty string, initialization still raises, so
presence of the credential alone does not guarantee a clean startup. -/
theorem C6_counterexample :
    emptyKeyEnv "GEMINI_API_KEY" ≠ none ∧ raisesError (moduleInit emptyKeyEnv) = true := by
  constructor
  · intro hcontra
    simp [emptyKeyEnv] at hcontra
  · rfl

/-- C7: with the default attempt budget (`retries = 1`), each of the
three stage functions makes exactly one service call, performs no
backoff sleep, and returns exactly the outcome of that single attempt:
the parsed object on success, the sentinel `none` on any failure. -/
theorem C7_default_single_attempt (o1 o2 o3 : Nat → CallResult)
    (user_question subtopic topic explanation template_type : String) (delay : Nat) :
    defaultRetries = 1 ∧
    generate_subtopics o1 user_question defaultRetries delay
      = ⟨stepSubtopics o1 1, 1, []⟩ ∧
    generate_explanation_and_activity o2 subtopic user_question defaultRetries delay
      = ⟨stepExplanation o2 1, 1, []⟩ ∧
    generate_interactive_activity o3 topic explanation template_type defaultRetries delay
      = ⟨stepActivity o3 1, 1, []⟩ := by
  refine ⟨rfl, ?_, ?_, ?_⟩
  · simpa [generate_subtopics, defaultRetries] using retryGo_single (stepSubtopics o1) delay
  · simpa [generate_explanation_and_activity, defaultRetries]
      using retryGo_single (stepExplanation o2) delay
  · simpa [generate_interactive_activity, defaultRetries]
      using retryGo_single (stepActivity o3) delay

/-- C8: parsing is deterministic at the value level: the same response
body fed through the parse step twice yields structurally equal
objects. -/
theorem C8_parse_deterministic (s : String) (v1 v2 : Json)
    (h1 : loads s = some v1) (h2 : loads s = some v2) : v1 = v2 := by
  rw [h1] at h2
  exact Option.some.inj h2

/-- C8 (witness): a concrete well-formed body parses to `sampleJson`
both times, and the two parses are equal. -/
theorem C8_witness :
    loads sampleBody = some sampleJson ∧ sampleJson = sampleJson :=
  ⟨by rfl, C8_parse_deterministic sampleBody sampleJson sampleJson (by rfl) (by rfl)⟩

/-- C9: stage 1 requests a bounded output (token ceiling 500) at fixed
temperature 0.7, and stage 2's ceiling of 1000 is strictly larger than
stage 1's 500. -/
theorem C9_stage_config_bounds :
    subtopicsConfig.temperature = 7 / 10 ∧
    subtopicsConfig.max_output_tokens = some 500 ∧
    explanationConfig.temperature = 7 / 10 ∧
    explanationConfig.max_output_tokens = some 1000 ∧
    (500 : Nat) < 1000 :=
  ⟨rfl, rfl, rfl, rfl, by norm_num⟩

/-- C10: a non-positive attempt budget makes each stage function return
the sentinel immediately: no service call is issued and no backoff
sleep is performed. -/
theorem C10_nonpositive_budget_no_call (oracle : Nat → CallResult)
    (user_question subtopic topic explanation template_type : String)
    (retries : Int) (delay : Nat) (h : retries ≤ 0) :
    generate_subtopics oracle user_question retries delay = ⟨none, 0, []⟩ ∧
    generate_explanation_and_activity oracle subtopic user_question retries delay
      = ⟨none, 0, []⟩ ∧
    generate_interactive_activity oracle topic explanation template_type retries delay
      = ⟨none, 0, []⟩ := by
  have h0 : retries.toNat = 0 := Int.toNat_of_nonpos h
  refine ⟨?_, ?_, ?_⟩ <;>
    simp [generate_subtopics, generate_explanation_and_activity,
      generate_interactive_activity, h0, retryGo]

/-- C10 (witness): with `retries = -1` all three stages return the
sentinel with zero calls and zero sleeps. -/
theorem C10_witness :
    (-1 : Int) ≤ 0 ∧
    (generate_subtopics emptyBodyOracle "Q" (-1) 3 = ⟨none, 0, []⟩ ∧
     generate_explanation_and_activity emptyBodyOracle "S" "Q" (-1) 3 = ⟨none, 0, []⟩ ∧
     generate_interactive_activity emptyBodyOracle "T" "E" "drag_drop" (-1) 3
        = ⟨none, 0, []⟩) :=
  ⟨by norm_num,
    C10_nonpositive_budget_no_call emptyBodyOracle "Q" "S" "T" "E" "drag_drop" (-1) 3
      (by norm_num)⟩
